import Mathlib

/-!
Verification of the ORM layer in `www/orm.py` (schema derivation, SQL template
generation, attribute access, CRUD argument binding, transactional execution).

The Python source is shallowly embedded: model instances are association lists
from attribute names to values, the metaclass is a function from the declared
class attributes to the derived class metadata (or an error), and the database
driver's response to a statement is passed in explicitly as an `Except` value.
-/

namespace Orm

/-- A Python runtime value as stored in a model instance or bound as a SQL
argument.  `meta` stands for a class-level attribute object (a method or the
derived metadata) looked up through the type, opaque to the claims. -/
inductive PyVal where
  | none
  | int (n : Int)
  | str (s : String)
  | bool (b : Bool)
  | meta (key : String)
deriving DecidableEq

/-- The `default` argument of `Field.__init__` (orm.py line 76): Python `None`,
a plain literal, or a zero-argument callable (line 224 tests `callable`). -/
inductive FieldDefault where
  | pyNone
  | lit (v : PyVal)
  | factory (f : Unit → PyVal)

/-- `Field` (orm.py lines 74-80): column name (possibly `None`), SQL column
type, primary-key flag, default. -/
structure Field where
  name : Option String
  column_type : String
  primary_key : Bool
  default : FieldDefault

/-- `StringField` (orm.py lines 86-92); Python defaults: `name=None`,
`primary_key=False`, `default=None`, `ddl='varchar(255)'`. -/
def StringField (name : Option String) (primary_key : Bool) (default : FieldDefault)
    (ddl : String) : Field :=
  Field.mk name ddl primary_key default

/-- `IntegerField` (orm.py lines 95-101); Python defaults: `name=None`,
`primary_key=False`, `default=0`. -/
def IntegerField (name : Option String) (primary_key : Bool) (default : FieldDefault) : Field :=
  Field.mk name "bigint" primary_key default

/-- A value declared in a model class body: a `Field` descriptor or any other
attribute (the `isinstance(v, Field)` test on orm.py line 154). -/
inductive AttrVal where
  | field (f : Field)
  | other (v : PyVal)

/-- Python `str.join` (`sep.join(parts)`). -/
def pyJoin (sep : String) : List String → String
  | [] => ""
  | [x] => x
  | x :: xs => x ++ sep ++ pyJoin sep xs

/-- `create_args_string` (orm.py lines 70-71): `','.join(['?'] * num)`. -/
def create_args_string (num : Nat) : String :=
  pyJoin "," (List.replicate num "?")

/-- Python truthiness of an optional string (`if primaryKey:` on line 159 and
`if not primaryKey:` on line 165): `None` and the empty string are falsy. -/
def pyTruthyOptStr : Option String → Bool
  | Option.none => false
  | some s => !s.isEmpty

/-- Python `'%s' % name` for a value that is a string or `None`. -/
def pyStrOfName : Option String → String
  | Option.none => "None"
  | some s => s

/-- The loop of `ModelMetaclass.__new__` (orm.py lines 153-164): walks the
declared attributes in order, collecting the field mapping, the non-key field
names, and the primary-key attribute name; raises on a second primary key. -/
def scanFields : List (String × AttrVal) → List (String × Field) → List String →
    Option String → Except String (List (String × Field) × List String × Option String)
  | [], mappings, fields, primaryKey => Except.ok (mappings, fields, primaryKey)
  | (k, AttrVal.field v) :: rest, mappings, fields, primaryKey =>
    let mappings' := mappings ++ [(k, v)]
    if v.primary_key then
      if pyTruthyOptStr primaryKey then
        Except.error ("Duplicate primary key for field: " ++ k)
      else
        scanFields rest mappings' fields (some k)
    else
      scanFields rest mappings' (fields ++ [k]) primaryKey
  | (_, AttrVal.other _) :: rest, mappings, fields, primaryKey =>
    scanFields rest mappings fields primaryKey

/-- `tableName = attrs.get('__table__', None) or name` (orm.py line 147).
Only a nonempty string value stands; every falsy or absent value falls back to
the class name.  (No model in the repository stores a non-string truthy value
under `__table__`.) -/
def resolveTableName (attrs : List (String × AttrVal)) (name : String) : String :=
  match List.lookup "__table__" attrs with
  | some (AttrVal.other (PyVal.str s)) => if s.isEmpty then name else s
  | _ => name

/-- One element of `escaped_fields` (orm.py lines 170-171):
`'\x60%s\x60' % mappings.get(f).name or f`.  Python parses this as
`('\x60%s\x60' % mappings.get(f).name) or f`: the formatting runs first, so the
result is always a nonempty string and the `or f` fallback is dead.  The
`none` branch of the lookup is unreachable (every name in `fields` is a key of
`mappings`; Python would raise there). -/
def escapeField (mappings : List (String × Field)) (f : String) : String :=
  match List.lookup f mappings with
  | some fld =>
    let s := "`" ++ pyStrOfName fld.name ++ "`"
    if s.isEmpty then f else s
  | Option.none => f

/-- `pk = mappings.get(primaryKey).name or primaryKey` (orm.py line 172).
The `none` branch of the lookup is unreachable for the same reason as in
`escapeField`. -/
def resolvePk (mappings : List (String × Field)) (primaryKey : String) : String :=
  match List.lookup primaryKey mappings with
  | some fld =>
    match fld.name with
    | some s => if s.isEmpty then primaryKey else s
    | Option.none => primaryKey
  | Option.none => primaryKey

/-- The attribute names the class keeps after orm.py lines 167-168 pop every
mapping key: exactly the declared non-`Field` attributes. -/
def othersOf (attrs : List (String × AttrVal)) : List String :=
  (attrs.filter (fun p => match p.2 with
    | AttrVal.field _ => false
    | AttrVal.other _ => true)).map Prod.fst

/-- The metadata `ModelMetaclass.__new__` stores back on the class
(orm.py lines 173-185), plus `others`, the names of the non-`Field` class
attributes that survive the popping on lines 167-168. -/
structure ModelCls where
  mappings : List (String × Field)
  table : String
  primary_key : String
  fields : List String
  others : List String
  select : String
  insert : String
  update : String
  delete : String

/-- The metadata stored on the class once validation has passed
(orm.py lines 170-185): the escaped column list, the resolved primary-key
column, and the four SQL templates, bit-for-bit as the `%`-format strings
produce them. -/
def buildModelCls (tableName : String) (attrs : List (String × AttrVal))
    (mappings : List (String × Field)) (fields : List String)
    (primaryKey : String) : ModelCls :=
  let escaped_fields := fields.map (escapeField mappings)
  let pk := resolvePk mappings primaryKey
  { mappings := mappings
    table := tableName
    primary_key := primaryKey
    fields := fields
    others := othersOf attrs
    select := "select `" ++ pk ++ "`, " ++ pyJoin "," escaped_fields ++
      " from `" ++ tableName ++ "`"
    insert := "insert into `" ++ tableName ++ "` (`" ++ pk ++ "`, " ++
      pyJoin "," escaped_fields ++ ") values(" ++
      create_args_string (fields.length + 1) ++ ")"
    update := "update `" ++ tableName ++ "` set " ++
      pyJoin "," (escaped_fields.map (fun f => f ++ "=?")) ++
      " where `" ++ pk ++ "` = ?"
    delete := "delete from `" ++ tableName ++ "` where `" ++ pk ++ "` = ?" }

/-- `ModelMetaclass.__new__` (orm.py lines 142-186) for a model class (the
`name == 'Model'` shortcut on line 144 is not taken).  The source's
`if not primaryKey: raise` is rendered as the two cases in which the optional
string is falsy: absent, or present but empty. -/
def modelMetaclassNew (name : String) (attrs : List (String × AttrVal)) :
    Except String ModelCls :=
  let tableName := resolveTableName attrs name
  match scanFields attrs [] [] Option.none with
  | Except.error e => Except.error e
  | Except.ok (mappings, fields, pkOpt) =>
    match pkOpt with
    | Option.none => Except.error "Primary key not found."
    | some primaryKey =>
      if primaryKey.isEmpty then Except.error "Primary key not found."
      else Except.ok (buildModelCls tableName attrs mappings fields primaryKey)

/-- The number of declared attributes that are `Field` descriptors marked
primary key — the quantity the schema-validation claim counts over. -/
def pkCount (attrs : List (String × AttrVal)) : Nat :=
  (attrs.filter (fun p => match p.2 with
    | AttrVal.field f => f.primary_key
    | AttrVal.other _ => false)).length

/-- A model instance: the underlying `dict` contents, newest write first
(`__setattr__` on orm.py lines 203-207 writes straight into the dict, and
`__init__` on lines 191-192 seeds it with the keyword arguments). -/
abbrev Inst := List (String × PyVal)

/-- The metadata keys `ModelMetaclass.__new__` stores on every model class
(orm.py lines 173-185). -/
def modelClsAttrNames : List String :=
  ["__mappings__", "__table__", "__primary_key__", "__fields__",
   "__select__", "__insert__", "__update__", "__delete__"]

/-- The methods the `Model` base class (orm.py lines 189-300) contributes to
attribute lookup on every instance. -/
def modelMethodNames : List String :=
  ["__init__", "__getattr__", "__setattr__", "getValue", "getValueOrDefault",
   "find", "findAll", "findNumber", "save", "update", "remove"]

/-- Attribute names every model instance inherits from its `dict` base and
from `object` (orm.py line 189: `class Model(dict, metaclass=ModelMetaclass)`).
These resolve through normal attribute lookup, so `Model.__getattr__` is
never consulted for them. -/
def dictObjectAttrNames : List String :=
  ["keys", "items", "values", "get", "pop", "popitem", "copy", "clear",
   "update", "setdefault", "fromkeys",
   "__class__", "__dict__", "__doc__", "__module__", "__new__", "__len__",
   "__getitem__", "__setitem__", "__delitem__", "__contains__", "__iter__",
   "__eq__", "__ne__", "__le__", "__lt__", "__ge__", "__gt__", "__or__",
   "__ror__", "__ior__", "__reversed__", "__repr__", "__str__", "__hash__",
   "__sizeof__", "__reduce__", "__reduce_ex__", "__getstate__", "__dir__",
   "__format__", "__getattribute__", "__delattr__", "__init_subclass__",
   "__subclasshook__"]

/-- Python attribute read on a model instance.  Class attributes — the
derived metadata, `Model`'s own methods, the attributes inherited from the
`dict` base and `object`, and the surviving non-`Field` class attributes —
win; otherwise `Model.__getattr__` (orm.py lines 194-201) falls back to
`self[key]` and raises `AttributeError` with the message of line 201 when the
key is absent from the dict. -/
def pyGetattr (cls : ModelCls) (inst : Inst) (key : String) : Except String PyVal :=
  if key ∈ modelClsAttrNames ∨ key ∈ modelMethodNames ∨
      key ∈ dictObjectAttrNames ∨ key ∈ cls.others then
    Except.ok (PyVal.meta key)
  else
    match List.lookup key inst with
    | some v => Except.ok v
    | Option.none => Except.error ("'Model' object has no attribute '" ++ key ++ "'")

/-- `Model.getValue` (orm.py lines 209-213): `getattr(self, key, None)`. -/
def getValue (cls : ModelCls) (inst : Inst) (key : String) : PyVal :=
  match pyGetattr cls inst key with
  | Except.ok v => v
  | Except.error _ => PyVal.none

/-- `Model.getValueOrDefault` (orm.py lines 215-228).  When the value is unset
(or `None`), line 222 reads `self.__mapping__[key]` — the attribute key is
`"__mapping__"`, while the metaclass stores the field dictionary under the
class attribute `"__mappings__"` (line 173).  Lines 223-227 (default lookup,
factory invocation, `setattr` write-back) sit behind that subscript: the
attribute read raises `AttributeError` when the instance dict has no
`"__mapping__"` entry, and when it does have one the stored plain value is not
the field dictionary, so the subscript raises `TypeError`; either way lines
223-227 never run. -/
def getValueOrDefault (cls : ModelCls) (inst : Inst) (key : String) :
    Except String (PyVal × Inst) :=
  match getValue cls inst key with
  | PyVal.none =>
    (match pyGetattr cls inst "__mapping__" with
     | Except.error msg => Except.error msg
     | Except.ok _v =>
       Except.error "TypeError: value stored under __mapping__ is not a field dictionary")
  | value => Except.ok (value, inst)

/-- One driver-visible action taken by `execute` (orm.py lines 52-67) on the
acquired connection. -/
inductive ConnOp where
  | begin
  | exec (sql : String) (args : List PyVal)
  | commit
  | rollback
deriving DecidableEq

/-- Python `sql.replace('?', '%s')` (orm.py line 59): the pattern is the
single character `?`, substituted character-wise. -/
def pyReplaceQ (s : String) : String :=
  String.mk (s.data.foldr (fun c acc => if c = '?' then '%' :: 's' :: acc else c :: acc) [])

/-- `execute` (orm.py lines 52-67).  `dbOutcome` is the driver's response to
the statement: the affected-row count, or the exception the cursor raises.
`conn.begin` runs before the `try` when not auto-committing; on success the
commit follows the statement, on failure the rollback does, and the bare
`raise` re-raises the original exception unchanged.  (`begin`, `commit` and
`rollback` themselves are modelled as succeeding.) -/
def executeOps (sql : String) (args : List PyVal) (dbOutcome : Except String Nat)
    (autocommit : Bool) : List ConnOp × Except String Nat :=
  let pre := if autocommit then [] else [ConnOp.begin]
  match dbOutcome with
  | Except.ok affected =>
    (pre ++ [ConnOp.exec (pyReplaceQ sql) args] ++
      (if autocommit then [] else [ConnOp.commit]), Except.ok affected)
  | Except.error e =>
    (pre ++ [ConnOp.exec (pyReplaceQ sql) args] ++
      (if autocommit then [] else [ConnOp.rollback]), Except.error e)

/-- The SQL `Model.find` passes to `select` (orm.py line 233):
`'%s where \x60%s\x60 = ?' % (cls.__select__, cls.__primary_key__)` — note the
second interpolation is the primary key's attribute name. -/
def findSql (cls : ModelCls) : String :=
  cls.select ++ " where `" ++ cls.primary_key ++ "` = ?"

/-- The argument list `Model.find` binds (orm.py line 233): `[pk]`. -/
def findArgs (pk : PyVal) : List PyVal := [pk]

/-- The size cap `Model.find` passes to `select` (orm.py line 233). -/
def findSize : Nat := 1

/-- `Model.find`'s handling of the returned rows (orm.py lines 234-236):
`None` on zero rows, else `cls(**rs[0])` — the first row becomes the instance
dict. -/
def findResult (rows : List Inst) : Option Inst :=
  match rows with
  | [] => Option.none
  | r :: _ => some r

/-- The value passed as `limit` to `Model.findAll` (orm.py line 251). -/
inductive PyLimit where
  | none
  | int (n : Int)
  | tuple (vs : List Int)
  | str (s : String)
deriving DecidableEq

/-- Python truthiness of a `limit` value (`if limit:` on orm.py line 252). -/
def limitTruthy : PyLimit → Bool
  | PyLimit.none => false
  | PyLimit.int n => n != 0
  | PyLimit.tuple vs => !vs.isEmpty
  | PyLimit.str s => !s.isEmpty

/-- Python `str(limit)` as interpolated into the error message on
orm.py line 261. -/
def pyStrLimit : PyLimit → String
  | PyLimit.none => "None"
  | PyLimit.int n => toString n
  | PyLimit.tuple vs =>
    "(" ++ pyJoin ", " (vs.map toString) ++ (if vs.length = 1 then ",)" else ")")
  | PyLimit.str s => s

/-- The `sql` list of `Model.findAll` before the `limit` section
(orm.py lines 241-250): the select template, then `where`/its clause when the
clause is truthy, then `order by`/its clause when truthy. -/
def findAllParts (cls : ModelCls) (whereC : Option String) (orderBy : Option String) :
    List String :=
  let sql := [cls.select]
  let sql := match whereC with
    | some w => if w.isEmpty then sql else sql ++ ["where", w]
    | Option.none => sql
  match orderBy with
  | some o => if o.isEmpty then sql else sql ++ ["order by", o]
  | Option.none => sql

/-- `if args is None: args = []` (orm.py lines 245-246). -/
def findAllInitArgs (args0 : Option (List PyVal)) : List PyVal :=
  match args0 with
  | some a => a
  | Option.none => []

/-- The `limit` section of `Model.findAll` plus the final `' '.join(sql)`
(orm.py lines 251-262): a truthy `int` appends one placeholder and its value,
a truthy 2-tuple appends `'?, ?'` and both values in order, any other truthy
shape raises `ValueError`, and a falsy `limit` skips the whole section. -/
def findAllBuild (cls : ModelCls) (whereC : Option String) (args0 : Option (List PyVal))
    (orderBy : Option String) (limit : PyLimit) : Except String (String × List PyVal) :=
  let sql := findAllParts cls whereC orderBy
  let args := findAllInitArgs args0
  if limitTruthy limit then
    match limit with
    | PyLimit.int n =>
      Except.ok (pyJoin " " (sql ++ ["limit", "?"]), args ++ [PyVal.int n])
    | PyLimit.tuple vs =>
      if vs.length = 2 then
        Except.ok (pyJoin " " (sql ++ ["limit", "?, ?"]), args ++ vs.map PyVal.int)
      else
        Except.error ("Invalid limit value: " ++ pyStrLimit (PyLimit.tuple vs))
    | other => Except.error ("Invalid limit value: " ++ pyStrLimit other)
  else
    Except.ok (pyJoin " " sql, args)

/-- The `map(self.getValueOrDefault, self.__fields__)` part of `Model.save`
(orm.py line 279), threading the instance through each read (a resolved
default would be written back by `setattr`). -/
def saveArgsLoop (cls : ModelCls) : List String → Inst → Except String (List PyVal × Inst)
  | [], inst => Except.ok ([], inst)
  | k :: ks, inst =>
    match getValueOrDefault cls inst k with
    | Except.error e => Except.error e
    | Except.ok (v, inst') =>
      match saveArgsLoop cls ks inst' with
      | Except.error e => Except.error e
      | Except.ok (vs, inst'') => Except.ok (v :: vs, inst'')

/-- The full argument list `Model.save` binds (orm.py lines 279-280): the
non-key fields in declaration order, then
`args.insert(0, self.getValueOrDefault(self.__primary_key__))`. -/
def saveArgs (cls : ModelCls) (inst : Inst) : Except String (List PyVal × Inst) :=
  match saveArgsLoop cls cls.fields inst with
  | Except.error e => Except.error e
  | Except.ok (args, inst') =>
    match getValueOrDefault cls inst' cls.primary_key with
    | Except.error e => Except.error e
    | Except.ok (pkv, inst'') => Except.ok (pkv :: args, inst'')

/-- The argument list `Model.update` binds (orm.py lines 287-288): plain
`getValue` over the non-key fields, then the primary-key value appended. -/
def updateArgs (cls : ModelCls) (inst : Inst) : List PyVal :=
  cls.fields.map (getValue cls inst) ++ [getValue cls inst cls.primary_key]

/-- The argument list `Model.remove` binds (orm.py line 296). -/
def removeArgs (cls : ModelCls) (inst : Inst) : List PyVal :=
  [getValue cls inst cls.primary_key]

/-- The warning `Model.save` logs on a row-count mismatch (orm.py line 283,
spelling as in the source). -/
def saveWarnMsg (rows : Nat) : String :=
  "faild to insert record: affected rows: " ++ toString rows

/-- The warning `Model.update` logs on a row-count mismatch (orm.py
lines 291-292). -/
def updateWarnMsg (rows : Nat) : String :=
  "failed to update by primary key: affected rows: " ++ toString rows

/-- The warning `Model.remove` logs on a row-count mismatch (orm.py
lines 299-300). -/
def removeWarnMsg (rows : Nat) : String :=
  "failed to remove by primary key: affected rows: " ++ toString rows

/-- `Model.save` (orm.py lines 277-283): computes the arguments (which can
raise, see `getValueOrDefault`), executes the insert template with the default
`autocommit=True`, and on `rows != 1` logs a warning and returns normally.
The result carries the possibly-updated instance and the logged warnings. -/
def save (cls : ModelCls) (inst : Inst) (dbOutcome : Except String Nat) :
    Except String (Inst × List String) :=
  match saveArgs cls inst with
  | Except.error e => Except.error e
  | Except.ok (args, inst') =>
    match (executeOps cls.insert args dbOutcome true).2 with
    | Except.error e => Except.error e
    | Except.ok rows =>
      Except.ok (inst', if rows != 1 then [saveWarnMsg rows] else [])

/-- `Model.update` (orm.py lines 285-292). -/
def update (cls : ModelCls) (inst : Inst) (dbOutcome : Except String Nat) :
    Except String (List String) :=
  let args := updateArgs cls inst
  match (executeOps cls.update args dbOutcome true).2 with
  | Except.error e => Except.error e
  | Except.ok rows =>
    Except.ok (if rows != 1 then [updateWarnMsg rows] else [])

/-- `Model.remove` (orm.py lines 294-300). -/
def remove (cls : ModelCls) (inst : Inst) (dbOutcome : Except String Nat) :
    Except String (List String) :=
  let args := removeArgs cls inst
  match (executeOps cls.delete args dbOutcome true).2 with
  | Except.error e => Except.error e
  | Except.ok rows =>
    Except.ok (if rows != 1 then [removeWarnMsg rows] else [])

/-- The class body of the sample model `User` (orm.py lines 303-307):
`__table__ = 'user'`, `id = IntegerField('id', primary_key=True)` (so its
default is the Python default `0`), `name = StringField('name')`. -/
def userAttrs : List (String × AttrVal) :=
  [("__table__", AttrVal.other (PyVal.str "user")),
   ("id", AttrVal.field (IntegerField (some "id") true (FieldDefault.lit (PyVal.int 0)))),
   ("name", AttrVal.field (StringField (some "name") false FieldDefault.pyNone "varchar(255)"))]

/-- A placeholder `ModelCls` used only to extract the `Except.ok` payload of a
derivation that is proved to succeed. -/
def emptyModelCls : ModelCls :=
  ModelCls.mk [] "" "" [] [] "" "" "" ""

/-- The derived metadata of the `User` model. -/
def userCls : ModelCls :=
  ((modelMetaclassNew "User" userAttrs).toOption).getD emptyModelCls

/-- A model whose non-key field `name` leaves the descriptor name absent
(`StringField()` with its Python default `name=None`). -/
def m3Attrs : List (String × AttrVal) :=
  [("id", AttrVal.field (IntegerField (some "id") true (FieldDefault.lit (PyVal.int 0)))),
   ("name", AttrVal.field (StringField Option.none false FieldDefault.pyNone "varchar(255)"))]

/-- The derived metadata of the `M3` model. -/
def m3Cls : ModelCls :=
  ((modelMetaclassNew "M3" m3Attrs).toOption).getD emptyModelCls

/-- The spec's template example: table `t`, primary key column `id`, one
other column `name`. -/
def tAttrs : List (String × AttrVal) :=
  [("__table__", AttrVal.other (PyVal.str "t")),
   ("id", AttrVal.field (IntegerField (some "id") true (FieldDefault.lit (PyVal.int 0)))),
   ("name", AttrVal.field (StringField (some "name") false FieldDefault.pyNone "varchar(255)"))]

/-- The derived metadata of the `t`-table model. -/
def tCls : ModelCls :=
  ((modelMetaclassNew "T" tAttrs).toOption).getD emptyModelCls

/-- A model whose primary-key descriptor declares a column name (`uid`)
different from its attribute name (`id`). -/
def m8Attrs : List (String × AttrVal) :=
  [("id", AttrVal.field (IntegerField (some "uid") true (FieldDefault.lit (PyVal.int 0)))),
   ("name", AttrVal.field (StringField (some "name") false FieldDefault.pyNone "varchar(255)"))]

/-- The derived metadata of the `M8` model. -/
def m8Cls : ModelCls :=
  ((modelMetaclassNew "M8" m8Attrs).toOption).getD emptyModelCls

/-- A model that declares a `Field` under the name `keys` — a name every
instance also inherits from the `dict` base class. -/
def mkAttrs : List (String × AttrVal) :=
  [("id", AttrVal.field (IntegerField (some "id") true (FieldDefault.lit (PyVal.int 0)))),
   ("keys", AttrVal.field (StringField (some "keys") false FieldDefault.pyNone "varchar(255)"))]

/-- The derived metadata of the `MK` model. -/
def mkCls : ModelCls :=
  ((modelMetaclassNew "MK" mkAttrs).toOption).getD emptyModelCls

/-! ## Helper lemmas -/

theorem pyJoin_append_pair (sep u v : String) :
    ∀ l : List String, l ≠ [] →
      pyJoin sep (l ++ [u, v]) = pyJoin sep l ++ sep ++ u ++ sep ++ v
  | [], h => absurd rfl h
  | [x], _ => by simp [pyJoin, String.append_assoc]
  | x :: y :: ys, _ => by
    have ih := pyJoin_append_pair sep u v (y :: ys) (by simp)
    simp only [List.cons_append] at ih ⊢
    simp only [pyJoin, ih, String.append_assoc]

theorem pkCount_cons (p : String × AttrVal) (rest : List (String × AttrVal)) :
    pkCount (p :: rest) =
      (match p.2 with
       | AttrVal.field f => if f.primary_key then 1 else 0
       | AttrVal.other _ => 0) + pkCount rest := by
  obtain ⟨k, v⟩ := p
  cases v with
  | field f => cases hf : f.primary_key <;> simp [pkCount, List.filter_cons, hf, Nat.add_comm]
  | other v => simp [pkCount, List.filter_cons]

theorem scanFields_no_pk (l : List (String × AttrVal)) :
    ∀ (m : List (String × Field)) (fs : List String) (pk : Option String),
      pkCount l = 0 →
      ∃ m' fs', scanFields l m fs pk = Except.ok (m', fs', pk) := by
  induction l with
  | nil => exact fun m fs pk _ => ⟨m, fs, rfl⟩
  | cons p rest ih =>
    intro m fs pk h
    obtain ⟨k, v⟩ := p
    cases v with
    | field f =>
      have hf : f.primary_key = false := by
        by_contra hc
        rw [pkCount_cons] at h
        simp [eq_true_of_ne_false hc] at h
      have hrest : pkCount rest = 0 := by
        rw [pkCount_cons] at h
        simpa [hf] using h
      obtain ⟨m', fs', hscan⟩ := ih (m ++ [(k, f)]) (fs ++ [k]) pk hrest
      exact ⟨m', fs', by simp [scanFields, hf, hscan]⟩
    | other v =>
      have hrest : pkCount rest = 0 := by
        rw [pkCount_cons] at h
        simpa using h
      obtain ⟨m', fs', hscan⟩ := ih m fs pk hrest
      exact ⟨m', fs', by simp [scanFields, hscan]⟩

theorem scanFields_dup (l : List (String × AttrVal)) :
    ∀ (m : List (String × Field)) (fs : List String) (k₀ : String),
      k₀.isEmpty = false → 1 ≤ pkCount l →
      ∃ k, scanFields l m fs (some k₀) =
        Except.error ("Duplicate primary key for field: " ++ k) := by
  induction l with
  | nil => intro m fs k₀ _ h; simp [pkCount] at h
  | cons p rest ih =>
    intro m fs k₀ hk h
    obtain ⟨k, v⟩ := p
    cases v with
    | field f =>
      cases hf : f.primary_key with
      | true => exact ⟨k, by simp [scanFields, hf, pyTruthyOptStr, hk]⟩
      | false =>
        have hrest : 1 ≤ pkCount rest := by
          rw [pkCount_cons] at h
          simpa [hf] using h
        obtain ⟨k', hscan⟩ := ih (m ++ [(k, f)]) (fs ++ [k]) k₀ hk hrest
        exact ⟨k', by simp [scanFields, hf, hscan]⟩
    | other v =>
      have hrest : 1 ≤ pkCount rest := by
        rw [pkCount_cons] at h
        simpa using h
      obtain ⟨k', hscan⟩ := ih m fs k₀ hk hrest
      exact ⟨k', by simp [scanFields, hscan]⟩

theorem scanFields_one_pk (l : List (String × AttrVal)) :
    ∀ (m : List (String × Field)) (fs : List String),
      (∀ p ∈ l, (p.1 : String).isEmpty = false) → pkCount l = 1 →
      ∃ m' fs' k, k.isEmpty = false ∧
        scanFields l m fs Option.none = Except.ok (m', fs', some k) := by
  induction l with
  | nil => intro m fs _ h; simp [pkCount] at h
  | cons p rest ih =>
    intro m fs hnames h
    obtain ⟨k, v⟩ := p
    cases v with
    | field f =>
      cases hf : f.primary_key with
      | true =>
        have hrest : pkCount rest = 0 := by
          rw [pkCount_cons] at h
          simpa [hf] using h
        have hk : k.isEmpty = false := hnames (k, AttrVal.field f) (List.Mem.head _)
        obtain ⟨m', fs', hscan⟩ :=
          scanFields_no_pk rest (m ++ [(k, f)]) fs (some k) hrest
        exact ⟨m', fs', k, hk, by simp [scanFields, hf, pyTruthyOptStr, hscan]⟩
      | false =>
        have hrest : pkCount rest = 1 := by
          rw [pkCount_cons] at h
          simpa [hf] using h
        obtain ⟨m', fs', k', hk', hscan⟩ := ih (m ++ [(k, f)]) (fs ++ [k])
          (fun q hq => hnames q (List.Mem.tail _ hq)) hrest
        exact ⟨m', fs', k', hk', by simp [scanFields, hf, hscan]⟩
    | other v =>
      have hrest : pkCount rest = 1 := by
        rw [pkCount_cons] at h
        simpa using h
      obtain ⟨m', fs', k', hk', hscan⟩ := ih m fs
        (fun q hq => hnames q (List.Mem.tail _ hq)) hrest
      exact ⟨m', fs', k', hk', by simp [scanFields, hscan]⟩

theorem scanFields_two_pk (l : List (String × AttrVal)) :
    ∀ (m : List (String × Field)) (fs : List String),
      (∀ p ∈ l, (p.1 : String).isEmpty = false) → 2 ≤ pkCount l →
      ∃ k, scanFields l m fs Option.none =
        Except.error ("Duplicate primary key for field: " ++ k) := by
  induction l with
  | nil => intro m fs _ h; simp [pkCount] at h
  | cons p rest ih =>
    intro m fs hnames h
    obtain ⟨k, v⟩ := p
    cases v with
    | field f =>
      cases hf : f.primary_key with
      | true =>
        have hrest : 1 ≤ pkCount rest := by
          rw [pkCount_cons] at h
          simp [hf] at h
          omega
        have hk : k.isEmpty = false := hnames (k, AttrVal.field f) (List.Mem.head _)
        obtain ⟨k', hscan⟩ := scanFields_dup rest (m ++ [(k, f)]) fs k hk hrest
        exact ⟨k', by simp [scanFields, hf, pyTruthyOptStr, hscan]⟩
      | false =>
        have hrest : 2 ≤ pkCount rest := by
          rw [pkCount_cons] at h
          simpa [hf] using h
        obtain ⟨k', hscan⟩ := ih (m ++ [(k, f)]) (fs ++ [k])
          (fun q hq => hnames q (List.Mem.tail _ hq)) hrest
        exact ⟨k', by simp [scanFields, hf, hscan]⟩
    | other v =>
      have hrest : 2 ≤ pkCount rest := by
        rw [pkCount_cons] at h
        simpa using h
      obtain ⟨k', hscan⟩ := ih m fs (fun q hq => hnames q (List.Mem.tail _ hq)) hrest
      exact ⟨k', by simp [scanFields, hscan]⟩

theorem eq_of_mem_nodup_keys {α : Type} :
    ∀ (l : List (String × α)), (l.map Prod.fst).Nodup →
      ∀ (k : String) (a b : α), (k, a) ∈ l → (k, b) ∈ l → a = b := by
  intro l
  induction l with
  | nil => intro _ k a b ha _; cases ha
  | cons p rest ih =>
    intro hnodup k a b ha hb
    rw [List.map_cons, List.nodup_cons] at hnodup
    rcases List.mem_cons.mp ha with ha1 | ha2 <;> rcases List.mem_cons.mp hb with hb1 | hb2
    · rw [← ha1] at hb1
      exact (congrArg Prod.snd hb1).symm
    · exfalso
      apply hnodup.1
      rw [← ha1]
      exact List.mem_map.mpr ⟨(k, b), hb2, rfl⟩
    · exfalso
      apply hnodup.1
      rw [← hb1]
      exact List.mem_map.mpr ⟨(k, a), ha2, rfl⟩
    · exact ih hnodup.2 k a b ha2 hb2

theorem field_key_not_in_others (attrs : List (String × AttrVal)) (key : String)
    (f : Field) (hmem : (key, AttrVal.field f) ∈ attrs)
    (hnodup : (attrs.map Prod.fst).Nodup) :
    key ∉ othersOf attrs := by
  intro hin
  unfold othersOf at hin
  obtain ⟨p, hp, hkey⟩ := List.mem_map.mp hin
  obtain ⟨hpmem, hpother⟩ := List.mem_filter.mp hp
  obtain ⟨k', v'⟩ := p
  have hk' : k' = key := hkey
  subst hk'
  have := eq_of_mem_nodup_keys attrs hnodup k' (AttrVal.field f) v' hmem hpmem
  rw [← this] at hpother
  simp at hpother

theorem modelMetaclassNew_others (name : String) (attrs : List (String × AttrVal))
    (cls : ModelCls) (h : modelMetaclassNew name attrs = Except.ok cls) :
    cls.others = othersOf attrs := by
  unfold modelMetaclassNew at h
  cases hscan : scanFields attrs [] [] Option.none with
  | error e => rw [hscan] at h; cases h
  | ok t =>
    obtain ⟨m, fs, pkOpt⟩ := t
    rw [hscan] at h
    cases pkOpt with
    | none => cases h
    | some pk =>
      by_cases hpk : pk.isEmpty
      · simp [hpk] at h
      · simp [hpk] at h
        rw [← h]
        rfl

theorem findAllParts_ne_nil (cls : ModelCls) (whereC orderBy : Option String) :
    findAllParts cls whereC orderBy ≠ [] := by
  unfold findAllParts
  rcases whereC with _ | w <;> rcases orderBy with _ | o <;> simp <;>
    split_ifs <;> simp

/-! ## Claims -/

/-- C1: the claim says `getValueOrDefault` on an unset field with descriptor
default `0` returns `0` and stores it back.  The code instead raises: on the
`User` instance `{name: 'Test'}` the field `id` is unset, its descriptor is
`IntegerField('id', primary_key=True)` with default `0`, yet the read of
`self.__mapping__` on orm.py line 222 (the metaclass stores `__mappings__`,
line 173) raises `AttributeError` before any default is consulted. -/
theorem C1_getValueOrDefault_raises :
    List.lookup "id" userCls.mappings =
      some (IntegerField (some "id") true (FieldDefault.lit (PyVal.int 0))) ∧
    getValueOrDefault userCls [("name", PyVal.str "Test")] "id" =
      Except.error "'Model' object has no attribute '__mapping__'" :=
  ⟨rfl, rfl⟩

/-- C2 counterexample: the claim quotes the zero-primary-key message as
`'Primary key not found'`, but orm.py line 166 raises
`'Primary key not found.'` with a trailing period. -/
theorem C2_message_counterexample :
    modelMetaclassNew "M0"
        [("x", AttrVal.field (StringField Option.none false FieldDefault.pyNone
          "varchar(255)"))] =
      Except.error "Primary key not found." ∧
    "Primary key not found." ≠ "Primary key not found" :=
  ⟨rfl, by decide⟩

/-- C2 (amended: the zero-primary-key message carries a trailing period,
`'Primary key not found.'`): for attribute lists with nonempty attribute
names, schema derivation fails with `'Primary key not found.'` when no
declared field is marked primary key, succeeds when exactly one is, and fails
with `'Duplicate primary key for field: <name>'` when two or more are —
all before any `ModelCls` value (and hence any instance) exists. -/
theorem C2_schema_pk_validation (name : String) (attrs : List (String × AttrVal))
    (hnames : ∀ p ∈ attrs, (p.1 : String).isEmpty = false) :
    (pkCount attrs = 0 →
      modelMetaclassNew name attrs = Except.error "Primary key not found.") ∧
    (pkCount attrs = 1 → ∃ cls, modelMetaclassNew name attrs = Except.ok cls) ∧
    (2 ≤ pkCount attrs → ∃ k, modelMetaclassNew name attrs =
      Except.error ("Duplicate primary key for field: " ++ k)) := by
  refine ⟨?_, ?_, ?_⟩
  · intro h0
    obtain ⟨m', fs', hscan⟩ := scanFields_no_pk attrs [] [] Option.none h0
    simp [modelMetaclassNew, hscan]
  · intro h1
    obtain ⟨m', fs', k, hk, hscan⟩ := scanFields_one_pk attrs [] [] hnames h1
    exact ⟨buildModelCls (resolveTableName attrs name) attrs m' fs' k,
      by simp [modelMetaclassNew, hscan, hk]⟩
  · intro h2
    obtain ⟨k, hscan⟩ := scanFields_two_pk attrs [] [] hnames h2
    exact ⟨k, by simp [modelMetaclassNew, hscan]⟩

/-- C2 witness: the `User` model has exactly one primary-key field and its
derivation succeeds. -/
theorem C2_schema_pk_validation_witness :
    ∃ cls, modelMetaclassNew "User" userAttrs = Except.ok cls :=
  (C2_schema_pk_validation "User" userAttrs (by decide)).2.1 (by decide)

/-- C3: the claim says a non-key field with an absent descriptor name falls
back to the attribute name.  The code formats first — orm.py line 170 parses
as `('\x60%s\x60' % mappings.get(f).name) or f` — so the absent name becomes
the column `\x60None\x60`, never the attribute name `name`: the `M3` model's
select template mentions `None` where the claim requires `name`. -/
theorem C3_escaped_column_formats_none :
    m3Cls.fields.map (escapeField m3Cls.mappings) = ["`None`"] ∧
    m3Cls.select = "select `id`, `None` from `M3`" ∧
    m3Cls.select ≠ "select `id`, `name` from `M3`" :=
  ⟨rfl, rfl, by decide⟩

/-- C4: for the model with table `t`, primary key column `id` and one other
column `name`, the four derived templates are bit-exact as claimed, and the
insert template's placeholder count equals the non-key field count plus
one. -/
theorem C4_sql_templates :
    tCls.select = "select `id`, `name` from `t`" ∧
    tCls.insert = "insert into `t` (`id`, `name`) values(?,?)" ∧
    tCls.update = "update `t` set `name`=? where `id` = ?" ∧
    tCls.delete = "delete from `t` where `id` = ?" ∧
    tCls.insert.data.count '?' = tCls.fields.length + 1 :=
  ⟨rfl, rfl, rfl, rfl, rfl⟩

/-- C5: the claim says `save()` binds `[pk, ...fields]` resolving and
persisting defaults for unset values.  The binding orders hold when every
value is set (`save` binds `[3, 'a']`, `update` binds `['a', 3]`), but on the
failing input `{name: 'Test'}` with `id` unset the default is never resolved:
`getValueOrDefault` raises `AttributeError` (the `__mapping__` typo of
orm.py line 222), so `save` cannot bind `[0, 'Test']`. -/
theorem C5_save_update_binding :
    saveArgs userCls [("name", PyVal.str "Test")] =
      Except.error "'Model' object has no attribute '__mapping__'" ∧
    saveArgs userCls [("id", PyVal.int 3), ("name", PyVal.str "a")] =
      Except.ok ([PyVal.int 3, PyVal.str "a"],
        [("id", PyVal.int 3), ("name", PyVal.str "a")]) ∧
    updateArgs userCls [("id", PyVal.int 3), ("name", PyVal.str "a")] =
      [PyVal.str "a", PyVal.int 3] :=
  ⟨rfl, rfl, rfl⟩

/-- C6: under `autocommit=true` the connection sees only the statement
execution; under `autocommit=false` the trace is begin-execute-commit on
success and begin-execute-rollback on failure, with the original error
re-raised unchanged. -/
theorem C6_execute_transaction (sql : String) (args : List PyVal)
    (dbOutcome : Except String Nat) :
    executeOps sql args dbOutcome true =
      ([ConnOp.exec (pyReplaceQ sql) args], dbOutcome) ∧
    (∀ n, dbOutcome = Except.ok n →
      executeOps sql args dbOutcome false =
        ([ConnOp.begin, ConnOp.exec (pyReplaceQ sql) args, ConnOp.commit],
          Except.ok n)) ∧
    (∀ e, dbOutcome = Except.error e →
      executeOps sql args dbOutcome false =
        ([ConnOp.begin, ConnOp.exec (pyReplaceQ sql) args, ConnOp.rollback],
          Except.error e)) := by
  refine ⟨?_, ?_, ?_⟩
  · cases dbOutcome <;> simp [executeOps]
  · intro n h; subst h; simp [executeOps]
  · intro e h; subst h; simp [executeOps]

/-- C6 witness: a failing delete under `autocommit=false` rolls back after the
translated statement and re-raises the original error. -/
theorem C6_execute_transaction_witness :
    executeOps "delete from `t` where `id` = ?" [PyVal.int 3]
        (Except.error "boom") false =
      ([ConnOp.begin,
        ConnOp.exec "delete from `t` where `id` = %s" [PyVal.int 3],
        ConnOp.rollback], Except.error "boom") :=
  (C6_execute_transaction "delete from `t` where `id` = ?" [PyVal.int 3]
    (Except.error "boom")).2.2 "boom" rfl

/-- C7 counterexample: the claim says every single-integer `limit` appends
exactly one placeholder bound to that integer, but `limit=0` is falsy
(`if limit:` on orm.py line 252): the built statement is the bare select and
the bound argument list stays empty rather than `[0]`. -/
theorem C7_limit_zero_counterexample :
    findAllBuild userCls Option.none Option.none Option.none (PyLimit.int 0) =
      Except.ok (userCls.select, []) ∧
    ([] : List PyVal) ≠ [PyVal.int 0] :=
  ⟨rfl, by decide⟩

/-- C7 (amended: the rule applies to truthy `limit` values only; a falsy
`limit` — the integer `0` or the empty tuple — appends no clause and raises
nothing): a nonzero integer appends one placeholder bound to it, a 2-tuple
appends two placeholders bound to offset then count, and any other truthy
shape (a nonempty string, a nonempty tuple of length other than 2) raises
`ValueError`. -/
theorem C7_limit_shapes (cls : ModelCls) (whereC : Option String)
    (args0 : Option (List PyVal)) (orderBy : Option String) :
    (∀ n : Int, n ≠ 0 → findAllBuild cls whereC args0 orderBy (PyLimit.int n) =
      Except.ok (pyJoin " " (findAllParts cls whereC orderBy) ++ " limit ?",
        findAllInitArgs args0 ++ [PyVal.int n])) ∧
    (∀ x y : Int, findAllBuild cls whereC args0 orderBy (PyLimit.tuple [x, y]) =
      Except.ok (pyJoin " " (findAllParts cls whereC orderBy) ++ " limit ?, ?",
        findAllInitArgs args0 ++ [PyVal.int x, PyVal.int y])) ∧
    (∀ s : String, s ≠ "" → findAllBuild cls whereC args0 orderBy (PyLimit.str s) =
      Except.error ("Invalid limit value: " ++ s)) ∧
    (∀ vs : List Int, vs ≠ [] → vs.length ≠ 2 →
      findAllBuild cls whereC args0 orderBy (PyLimit.tuple vs) =
        Except.error ("Invalid limit value: " ++ pyStrLimit (PyLimit.tuple vs))) ∧
    findAllBuild cls whereC args0 orderBy (PyLimit.int 0) =
      Except.ok (pyJoin " " (findAllParts cls whereC orderBy), findAllInitArgs args0) ∧
    findAllBuild cls whereC args0 orderBy (PyLimit.tuple []) =
      Except.ok (pyJoin " " (findAllParts cls whereC orderBy), findAllInitArgs args0) := by
  have hjoin := pyJoin_append_pair " " "limit" "?"
    (findAllParts cls whereC orderBy) (findAllParts_ne_nil cls whereC orderBy)
  have hjoin2 := pyJoin_append_pair " " "limit" "?, ?"
    (findAllParts cls whereC orderBy) (findAllParts_ne_nil cls whereC orderBy)
  refine ⟨?_, ?_, ?_, ?_, ?_, ?_⟩
  · intro n hn
    have hb : (n != 0) = true := by simpa using hn
    simp only [findAllBuild, limitTruthy, hb, if_true]
    rw [hjoin]
    simp [String.append_assoc]
  · intro x y
    simp only [findAllBuild, limitTruthy, List.isEmpty_cons, Bool.not_false, if_true]
    rw [hjoin2]
    simp [String.append_assoc]
  · intro s hs
    have hb : s.isEmpty = false := by
      cases hsi : s.isEmpty
      · rfl
      · exact absurd ((String.isEmpty_iff s).mp hsi) hs
    simp [findAllBuild, limitTruthy, hb, pyStrLimit]
  · intro vs hvs hlen
    have hb : vs.isEmpty = false := by simpa using hvs
    simp [findAllBuild, limitTruthy, hb, hlen]
  · simp [findAllBuild, limitTruthy]
  · simp [findAllBuild, limitTruthy]

/-- C7 witness: `limit=5` appends one placeholder bound to `5`. -/
theorem C7_limit_shapes_witness :
    findAllBuild userCls Option.none Option.none Option.none (PyLimit.int 5) =
      Except.ok (pyJoin " " (findAllParts userCls Option.none Option.none) ++ " limit ?",
        findAllInitArgs Option.none ++ [PyVal.int 5]) :=
  (C7_limit_shapes userCls Option.none Option.none Option.none).1 5 (by decide)

/-- C8 counterexample: the claim says `find` filters on the primary-key
*column*; orm.py line 233 interpolates `cls.__primary_key__`, the attribute
name.  On the `M8` model (attribute `id`, declared column `uid`) the resolved
primary-key column is `uid` yet the where clause says `\x60id\x60`. -/
theorem C8_find_pk_attribute_counterexample :
    resolvePk m8Cls.mappings m8Cls.primary_key = "uid" ∧
    findSql m8Cls = "select `uid`, `name` from `M8` where `id` = ?" ∧
    findSql m8Cls ≠ "select `uid`, `name` from `M8` where `uid` = ?" :=
  ⟨rfl, rfl, by decide⟩

/-- C8 (amended: the where clause is built over the primary key's *attribute*
name, which coincides with the column name exactly when the descriptor
declares no distinct name): `find` executes the select template extended with
`where \x60<pk-attribute>\x60 = ?`, binds the single argument `pk`, caps the
result at one row, returns nothing on zero rows and otherwise the first row
itself as the instance mapping (so its field values equal the stored row). -/
theorem C8_find_semantics (cls : ModelCls) (pk : PyVal) (r : Inst)
    (rest : List Inst) :
    findSql cls = cls.select ++ " where `" ++ cls.primary_key ++ "` = ?" ∧
    findArgs pk = [pk] ∧
    findSize = 1 ∧
    findResult [] = Option.none ∧
    findResult (r :: rest) = some r :=
  ⟨rfl, rfl, rfl, rfl, rfl⟩

/-- C9: whenever the executed mutation reports an affected-row count other
than 1, `save`, `update` and `remove` log the respective warning and return
normally — the row-count check itself raises nothing. -/
theorem C9_soft_row_warning (cls : ModelCls) (inst : Inst) (rows : Nat)
    (hrows : rows ≠ 1) :
    (∀ args inst', saveArgs cls inst = Except.ok (args, inst') →
      save cls inst (Except.ok rows) = Except.ok (inst', [saveWarnMsg rows])) ∧
    update cls inst (Except.ok rows) = Except.ok [updateWarnMsg rows] ∧
    remove cls inst (Except.ok rows) = Except.ok [removeWarnMsg rows] := by
  have hb : (rows != 1) = true := by simpa using hrows
  refine ⟨?_, ?_, ?_⟩
  · intro args inst' h
    simp [save, h, executeOps, hb]
  · simp [update, executeOps, hb]
  · simp [remove, executeOps, hb]

/-- C9 witness: an update affecting zero rows completes with the warning. -/
theorem C9_soft_row_warning_witness :
    update userCls [("id", PyVal.int 3), ("name", PyVal.str "a")] (Except.ok 0) =
      Except.ok [updateWarnMsg 0] :=
  (C9_soft_row_warning userCls [("id", PyVal.int 3), ("name", PyVal.str "a")] 0
    (by decide)).2.1

/-- C10 counterexample: the claim quantifies over *any* key with a declared
`Field` descriptor, but `Model` inherits attributes from its `dict` base
(orm.py line 189).  On the `MK` model — which declares
`keys = StringField('keys')`, duly stripped from the class (`others` is
empty) — reading `keys` on an instance with nothing set resolves to the
inherited bound `dict.keys` method and raises no `AttributeError`. -/
theorem C10_inherited_attribute_counterexample :
    ("keys", AttrVal.field (StringField (some "keys") false FieldDefault.pyNone
      "varchar(255)")) ∈ mkAttrs ∧
    mkCls.others = [] ∧
    List.lookup "keys" ([] : Inst) = Option.none ∧
    pyGetattr mkCls [] "keys" = Except.ok (PyVal.meta "keys") ∧
    pyGetattr mkCls [] "keys" ≠
      Except.error "'Model' object has no attribute 'keys'" :=
  ⟨List.Mem.tail _ (List.Mem.head _), rfl, rfl, rfl, fun h => nomatch h⟩

/-- C10 (amended: the rule holds for keys that do not collide with an
attribute the class otherwise provides — the metaclass-stored metadata keys,
`Model`'s methods, the attributes inherited from `dict`/`object`, and the
surviving non-`Field` class attributes; a `Field` declared under such a
colliding name, e.g. `keys`, is still stripped, but the read then resolves to
the inherited attribute instead of raising): reading any non-colliding key
absent from the instance mapping raises `AttributeError` with the message of
orm.py line 201, even when a `Field` descriptor (with any default) was
declared under that name — the metaclass pops every descriptor off the class
(lines 167-168, witnessed here by the key's absence from `cls.others`), so
plain attribute access never consults field defaults. -/
theorem C10_unknown_attribute (name : String) (attrs : List (String × AttrVal))
    (cls : ModelCls) (inst : Inst) (key : String) (f : Field)
    (hder : modelMetaclassNew name attrs = Except.ok cls)
    (hfield : (key, AttrVal.field f) ∈ attrs)
    (hnodup : (attrs.map Prod.fst).Nodup)
    (hninst : List.lookup key inst = Option.none)
    (hmeta : key ∉ modelClsAttrNames)
    (hmethod : key ∉ modelMethodNames)
    (hdict : key ∉ dictObjectAttrNames) :
    pyGetattr cls inst key =
      Except.error ("'Model' object has no attribute '" ++ key ++ "'") := by
  have hothers : cls.others = othersOf attrs := modelMetaclassNew_others name attrs cls hder
  have hnot : key ∉ cls.others := by
    rw [hothers]
    exact field_key_not_in_others attrs key f hfield hnodup
  simp [pyGetattr, hmeta, hmethod, hdict, hnot, hninst]

/-- C10 witness: on a fresh `User` instance with nothing set, reading `name`
— declared as a `StringField` on the class — raises the attribute error. -/
theorem C10_unknown_attribute_witness :
    pyGetattr userCls [] "name" =
      Except.error "'Model' object has no attribute 'name'" :=
  C10_unknown_attribute "User" userAttrs userCls [] "name"
    (StringField (some "name") false FieldDefault.pyNone "varchar(255)")
    rfl (List.Mem.tail _ (List.Mem.tail _ (List.Mem.head _)))
    (by decide) rfl (by decide) (by decide) (by decide)

end Orm
